import Mathlib

/-!
Verification of the calibration-driven regression classifier in
`testsuite/single_node_performance.py`.

The Python source is shallowly embedded below.  Decimal float literals of the
source are modelled as rationals (`ℚ`); threshold arithmetic, which uses
`pow(x, 0.8)`, is modelled over the reals (`ℝ`) with `Real.rpow`.  Fallible
code (assertions, regex extraction, parsing) is modelled with `Option`, where
`none` stands for the raised exception.
-/

namespace SNP

/-- The `Flow` flag enumeration (source lines 18-33). -/
inductive Flow
  | LAND_BLOCKING
  | CONTINUOUS
  | REPRESENTATIVE
  | MAINNET
  | MAINNET_LARGE_DB
  | AGG_V2
  | RESOURCE_GROUPS
deriving DecidableEq, Repr

/-- A union of `Flow` flags, as used for `included_in`: membership function.
A single flag `f` is a member of the union `s` exactly when `s f = true`. -/
def FlowSet : Type := Flow → Bool

/-- `LAND_BLOCKING_AND_C = Flow.LAND_BLOCKING | Flow.CONTINUOUS` (line 37). -/
def LAND_BLOCKING_AND_C : FlowSet := fun f =>
  match f with
  | Flow.LAND_BLOCKING => true
  | Flow.CONTINUOUS => true
  | _ => false

/-- The empty flag union `Flow(0)` (used for disabled tests). -/
def emptyFlowSet : FlowSet := fun _ => false

/-- `IS_MAINNET = SELECTED_FLOW in [Flow.MAINNET, Flow.MAINNET_LARGE_DB]`
(line 42), as a function of the selected flow. -/
def IS_MAINNET (f : Flow) : Bool :=
  match f with
  | Flow.MAINNET => true
  | Flow.MAINNET_LARGE_DB => true
  | _ => false

/-- `NOISE_LOWER_LIMIT = 0.98 if IS_MAINNET else 0.8` (line 66). -/
noncomputable def NOISE_LOWER_LIMIT (f : Flow) : ℝ :=
  if IS_MAINNET f = true then 0.98 else 0.8

/-- `NOISE_LOWER_LIMIT_WARN = 0.9` (line 67). -/
noncomputable def NOISE_LOWER_LIMIT_WARN : ℝ := 0.9

/-- `NOISE_UPPER_LIMIT = 1.15` (line 70). -/
noncomputable def NOISE_UPPER_LIMIT : ℝ := 1.15

/-- `NOISE_UPPER_LIMIT_WARN = 1.05` (line 71). -/
noncomputable def NOISE_UPPER_LIMIT_WARN : ℝ := 1.05

/-- `SKIP_PERF_IMPROVEMENT_NOTICE = IS_MAINNET` (line 74). -/
def SKIP_PERF_IMPROVEMENT_NOTICE (f : Flow) : Bool := IS_MAINNET f

/-- `RunGroupKey` (lines 118-122). -/
structure RunGroupKey where
  transaction_type : String
  module_working_set_size : ℕ
  executor_type : String
deriving DecidableEq, Repr

/-- `RunGroupKeyExtra` (lines 125-129). -/
structure RunGroupKeyExtra where
  transaction_type_override : Option String
  transaction_weights_override : Option String
  sharding_traffic_flags : Option String
deriving DecidableEq, Repr

/-- `RunGroupConfig` (lines 132-138).  `included_in` is the flag union;
`expected_tps`, a Python float literal, is modelled as an optional rational. -/
structure RunGroupConfig where
  key : RunGroupKey
  included_in : FlowSet
  expected_tps : Option ℚ
  key_extra : RunGroupKeyExtra
  waived : Bool

/-- `CalibrationData` (lines 369-374).  The trailing apostrophes on the ratio
fields are purely lexical; they model `min_ratio` and `max_ratio`. -/
structure CalibrationData where
  expected_tps : ℚ
  count : ℕ
  min_ratio' : ℚ
  max_ratio' : ℚ
deriving DecidableEq, Repr

/-- `Criteria` (lines 377-383), field order as in the source. -/
structure Criteria where
  expected_tps : ℝ
  min_tps : ℝ
  min_warn_tps : ℝ
  max_tps : ℝ
  max_warn_tps : ℝ

/-- `RunResults` (lines 345-357).  The parsed decimal metrics are rationals. -/
structure RunResults where
  tps : ℚ
  gps : ℚ
  effective_gps : ℚ
  io_gps : ℚ
  execution_gps : ℚ
  gpt : ℚ
  storage_fee_pt : ℚ
  output_bps : ℚ
  fraction_in_execution : ℚ
  fraction_of_execution_in_vm : ℚ
  fraction_in_commit : ℚ
deriving DecidableEq, Repr

/-- `RunGroupInstance` (lines 360-366), with the thread-results mapping as an
association list. -/
structure RunGroupInstance where
  key : RunGroupKey
  single_node_result : RunResults
  number_of_threads_results : List (ℕ × RunResults)
  block_size : ℕ
  expected_tps : ℝ

/-- The four classification tiers of the elif chain (lines 787-810). -/
inductive Tier
  | regression
  | softLow
  | improvement
  | softHigh
deriving DecidableEq, Repr

/-- Content of one accumulated warning/error text (lines 788, 794, 800, 809):
the tier, the measured tps, the expected median, the violated threshold and
the test key that appear in the formatted message. -/
structure Message where
  tier : Tier
  tps : ℝ
  expected_tps : ℝ
  threshold : ℝ
  key : RunGroupKey

/-- The accumulated per-run state: the `results` list and the global
`errors` / `warnings` lists (lines 543-544, 586). -/
structure LoopState where
  results : List RunGroupInstance
  errors : List Message
  warnings : List Message

/-- The metric names matched by `extract_run_results` (lines 391-447). -/
inductive Metric
  | tps
  | gps
  | effectiveGps
  | ioGps
  | executionGps
  | gpt
  | storageFeePt
  | outputBps
  | fractionInExecution
  | fractionOfExecutionInVm
  | fractionInCommit
  | createDbTps
deriving DecidableEq, Repr

/-- Observable events of the main run, for ordering arguments: the DB-creation
benchmark process (line 584), a test's benchmark process (line 683), and the
`assert test.key in calibrated_expected_tps` failure (line 618). -/
inductive RunEvent
  | createDb
  | launch (k : RunGroupKey)
  | configError (k : RunGroupKey)
deriving DecidableEq, Repr

/-- The observable outcome of a whole run: whether the performance tests were
reached, and the process exit code (lines 547-558, 812-840). -/
structure RunOutcome where
  perfTestsRan : Bool
  exitCode : ℕ
deriving DecidableEq, Repr

/-- `CALIBRATION_SEPARATOR` (line 158): a tab character. -/
def CALIBRATION_SEPARATOR : Char := '\t'

/-- Python `str.split(sep)` on a character list. -/
def splitOnChar (c : Char) : List Char → List (List Char)
  | [] => [[]]
  | a :: as =>
    if a = c then [] :: splitOnChar c as
    else
      match splitOnChar c as with
      | h :: t => (a :: h) :: t
      | [] => [[a]]

/-- The whitespace characters removed by Python `str.strip()` that can occur
in the calibration block. -/
def isPySpace (c : Char) : Bool :=
  c = ' ' || c = '\t' || c = '\n' || c = '\r'

/-- Python `str.strip()` on a character list. -/
def trimChars (cs : List Char) : List Char :=
  ((cs.dropWhile isPySpace).reverse.dropWhile isPySpace).reverse

/-- Python negative indexing `l[-i]` for `i ≥ 1`: `none` models the
`IndexError` raised when `i` exceeds the length. -/
def getNeg {α : Type} (l : List α) (i : ℕ) : Option α :=
  if 1 ≤ i ∧ i ≤ l.length then l.get? (l.length - i) else none

/-- One step of reading a digit string left to right; a non-digit is a
raised `ValueError` (`none`). -/
def natFromDigits : List Char → Option ℕ → Option ℕ
  | [], acc => acc
  | c :: cs, acc =>
      if c.isDigit then natFromDigits cs (some ((acc.getD 0) * 10 + (c.toNat - 48)))
      else none

/-- Python `int(s)` on the nonnegative integer literals of the table. -/
def parseNatChars (cs : List Char) : Option ℕ :=
  natFromDigits cs none

/-- Python `float(s)` on the nonnegative decimal literals of the calibration
table; `none` models the `ValueError` on malformed input. -/
def parseDecimalChars (cs : List Char) : Option ℚ :=
  match splitOnChar '.' cs with
  | [w] => (parseNatChars w).map fun n => (n : ℚ)
  | [w, fr] => do
      let wn ← parseNatChars w
      let fn ← parseNatChars fr
      pure ((wn : ℚ) + (fn : ℚ) / (10 : ℚ) ^ fr.length)
  | _ => none

/-- One iteration of the `calibrated_expected_tps` comprehension
(lines 560-578): strip the line, split on the separator, drop empty parts;
a line with no parts is skipped (`some none`), otherwise the key is read from
`parts[0..2]` and the statistics from `parts[-1]`, `parts[-4]`, `parts[-3]`,
`parts[-2]` (the `CALIBRATED_*_INDEX` constants, lines 154-157); any
conversion or index failure is a raised exception (`none`). -/
def parseCalibrationLine (line : String) : Option (Option (RunGroupKey × CalibrationData)) :=
  let parts := (splitOnChar CALIBRATION_SEPARATOR (trimChars line.data)).filter
    (fun p => p ≠ [])
  if parts.length = 0 then some none
  else
    match parts.get? 0, (parts.get? 1).bind parseNatChars, parts.get? 2,
        (getNeg parts 1).bind parseDecimalChars, (getNeg parts 4).bind parseNatChars,
        (getNeg parts 3).bind parseDecimalChars, (getNeg parts 2).bind parseDecimalChars with
    | some tt, some ws, some ex, some tps, some cnt, some mnr, some mxr =>
        some (some (⟨String.mk tt, ws, String.mk ex⟩, ⟨tps, cnt, mnr, mxr⟩))
    | _, _, _, _, _, _, _ => none

/-- All rows produced by the comprehension, in line order. -/
def parseCalibrationRows : List String → Option (List (RunGroupKey × CalibrationData))
  | [] => some []
  | l :: ls => do
      let row? ← parseCalibrationLine l
      let rest ← parseCalibrationRows ls
      pure (match row? with
            | none => rest
            | some r => r :: rest)

/-- Python dict insertion: a later binding for the same key overwrites. -/
def dictInsert (m : RunGroupKey → Option CalibrationData)
    (e : RunGroupKey × CalibrationData) : RunGroupKey → Option CalibrationData :=
  fun k => if k = e.1 then some e.2 else m k

/-- The dict built by the `calibrated_expected_tps` comprehension from its
rows, in line order (lines 560-578). -/
def buildTable (rows : List (RunGroupKey × CalibrationData)) :
    RunGroupKey → Option CalibrationData :=
  rows.foldl dictInsert (fun _ => none)

/-- The `Criteria` of the static-override branch (lines 610-616). -/
noncomputable def staticCriteria (f : Flow) (e : ℚ) : Criteria :=
  { expected_tps := (e : ℝ)
    min_tps := (e : ℝ) * NOISE_LOWER_LIMIT f
    min_warn_tps := (e : ℝ) * NOISE_LOWER_LIMIT_WARN
    max_tps := (e : ℝ) * NOISE_UPPER_LIMIT
    max_warn_tps := (e : ℝ) * NOISE_UPPER_LIMIT_WARN }

/-- The `Criteria` of the calibrated branch (lines 619-640). -/
noncomputable def calibratedCriteria (d : CalibrationData) : Criteria :=
  { expected_tps := (d.expected_tps : ℝ)
    min_tps := (d.expected_tps : ℝ) *
      (1 - (1 - (d.min_ratio' : ℝ)) * (1 + 10 / (d.count : ℝ)) - 1 / (d.count : ℝ))
    min_warn_tps := (d.expected_tps : ℝ) * (d.min_ratio' : ℝ) ^ (0.8 : ℝ)
    max_tps := (d.expected_tps : ℝ) *
      (1 + ((d.max_ratio' : ℝ) - 1) * (1 + 10 / (d.count : ℝ)) + 1 / (d.count : ℝ))
    max_warn_tps := (d.expected_tps : ℝ) * (d.max_ratio' : ℝ) ^ (0.8 : ℝ) }

/-- The per-test criteria computation (lines 608-640): a static
`expected_tps` override takes the fixed-multiplier branch, otherwise the key
is looked up in the calibration table; `none` models the failed
`assert test.key in calibrated_expected_tps` (line 618). -/
noncomputable def computeCriteria (f : Flow)
    (table : RunGroupKey → Option CalibrationData) (test : RunGroupConfig) :
    Option Criteria :=
  match test.expected_tps with
  | some e => some (staticCriteria f e)
  | none => (table test.key).map calibratedCriteria

/-- The classification elif chain (lines 787-810), acting on the accumulated
`errors` and `warnings` lists.  `skip` is `SKIP_PERF_IMPROVEMENT_NOTICE`. -/
noncomputable def classifyStep (skip waived : Bool) (k : RunGroupKey) (tps : ℝ)
    (c : Criteria) (errors warnings : List Message) :
    List Message × List Message :=
  if tps < c.min_tps then
    let m : Message := ⟨Tier.regression, tps, c.expected_tps, c.min_tps, k⟩
    if waived = true then (errors, warnings ++ [m]) else (errors ++ [m], warnings)
  else if tps < c.min_warn_tps then
    (errors, warnings ++ [⟨Tier.softLow, tps, c.expected_tps, c.min_warn_tps, k⟩])
  else if skip = false ∧ c.max_tps < tps then
    let m : Message := ⟨Tier.improvement, tps, c.expected_tps, c.max_tps, k⟩
    if waived = true then (errors, warnings ++ [m]) else (errors ++ [m], warnings)
  else if skip = false ∧ c.max_warn_tps < tps then
    (errors, warnings ++ [⟨Tier.softHigh, tps, c.expected_tps, c.max_warn_tps, k⟩])
  else (errors, warnings)

/-- Modelled from the spec: the threshold mentioned in each tier's message. -/
def tierThreshold (c : Criteria) : Tier → ℝ
  | Tier.regression => c.min_tps
  | Tier.softLow => c.min_warn_tps
  | Tier.improvement => c.max_tps
  | Tier.softHigh => c.max_warn_tps

/-- Modelled from the spec: which tiers are "hard" (error unless waived). -/
def tierIsError : Tier → Bool
  | Tier.regression => true
  | Tier.softLow => false
  | Tier.improvement => true
  | Tier.softHigh => false

/-- Modelled from the spec: the guards of the four tiers, in the spec's stated
precedence order (tiers 3 and 4 guarded by non-suppression). -/
noncomputable def specTierGuards (skip : Bool) (tps : ℝ) (c : Criteria) :
    List (Bool × Tier) :=
  [(decide (tps < c.min_tps), Tier.regression),
   (decide (tps < c.min_warn_tps), Tier.softLow),
   (decide (skip = false ∧ c.max_tps < tps), Tier.improvement),
   (decide (skip = false ∧ c.max_warn_tps < tps), Tier.softHigh)]

/-- Modelled from the spec: the first matching tier, or `none` for a pass. -/
noncomputable def specClassification (skip : Bool) (tps : ℝ) (c : Criteria) :
    Option Tier :=
  ((specTierGuards skip tps c).find? (fun g => g.1)).map (fun g => g.2)

/-- The key synthesized for a stage result (lines 708-713): the transaction
type annotated with the stage index, same working-set size and executor. -/
def stageKey (k : RunGroupKey) (stage : ℕ) : RunGroupKey :=
  ⟨k.transaction_type ++ " [stage " ++ toString stage ++ "]",
   k.module_working_set_size, k.executor_type⟩

/-- Per-test bookkeeping after a benchmark run (lines 686-810): the overall
result is appended to `results`, each stage result is appended under its
synthesized key with the parent criteria's `expected_tps`, and the
classification chain runs on the overall result's tps alone. -/
noncomputable def processTest (skip : Bool) (test : RunGroupConfig)
    (criteria : Criteria) (block_size : ℕ)
    (number_of_threads_results : List (ℕ × RunResults))
    (single_node_result : RunResults)
    (stage_node_results : List (ℕ × RunResults)) (st : LoopState) : LoopState :=
  let results1 := st.results ++
    [⟨test.key, single_node_result, number_of_threads_results, block_size,
      criteria.expected_tps⟩]
  let results2 := results1 ++ stage_node_results.map (fun sr =>
    ⟨stageKey test.key sr.1, sr.2, number_of_threads_results, block_size,
     criteria.expected_tps⟩)
  let ew := classifyStep skip test.waived test.key
    ((single_node_result.tps : ℝ)) criteria st.errors st.warnings
  ⟨results2, ew.1, ew.2⟩

/-- `get_only` (lines 386-388): `none` models the failed assertion on zero or
multiple regex matches. -/
def get_only (values : List ℚ) : Option ℚ :=
  if values.length = 1 then values.head? else none

/-- The `[-1]` indexing used for the three timing-fraction metrics
(lines 435-447): the last of the matches; `none` models the `IndexError` on
an empty match list. -/
def lastOf (values : List ℚ) : Option ℚ := values.getLast?

/-- A benchmark output blob, abstracted to the `re.findall` match lists of
each (line-prefix, metric) pattern. -/
def BenchOutput : Type := String → Metric → List ℚ

/-- `extract_run_results` (lines 391-461): the eight rate metrics demand
exactly one match each via `get_only`; the three fraction metrics take the
last match via `[-1]`; the `create_db` branch reads only the creation TPS. -/
def extract_run_results (out : BenchOutput) (pfx : String) (create_db : Bool) :
    Option RunResults :=
  if create_db = true then
    (get_only (out pfx Metric.createDbTps)).map
      (fun tps => ⟨tps, 0, 0, 0, 0, 0, 0, 0, 0, 0, 0⟩)
  else
    match get_only (out pfx Metric.tps), get_only (out pfx Metric.gps),
        get_only (out pfx Metric.effectiveGps), get_only (out pfx Metric.ioGps),
        get_only (out pfx Metric.executionGps), get_only (out pfx Metric.gpt),
        get_only (out pfx Metric.storageFeePt), get_only (out pfx Metric.outputBps),
        lastOf (out pfx Metric.fractionInExecution),
        lastOf (out pfx Metric.fractionOfExecutionInVm),
        lastOf (out pfx Metric.fractionInCommit) with
    | some tps, some gps, some egps, some iogps, some xgps, some gpt, some sfpt,
        some obps, some fie, some fev, some fic =>
        some ⟨tps, gps, egps, iogps, xgps, gpt, sfpt, obps, fie, fev, fic⟩
    | _, _, _, _, _, _, _, _, _, _, _ => none

/-- The selection test of the main loop (lines 602-606): the active flow must
be a member of `included_in`, and native-executor tests are skipped when
`SKIP_NATIVE` is set. -/
def runsTest (skipNative : Bool) (f : Flow) (t : RunGroupConfig) : Bool :=
  t.included_in f && !(skipNative && (t.key.executor_type == "native"))

/-- The event trace of the performance-test loop (lines 598-683): a selected
test first has its criteria computed — a missing calibration entry raises the
assertion, aborting the run — and only then is its benchmark launched. -/
noncomputable def perfLoop (skipNative : Bool) (f : Flow)
    (table : RunGroupKey → Option CalibrationData) :
    List RunGroupConfig → List RunEvent
  | [] => []
  | t :: rest =>
    if runsTest skipNative f t then
      match computeCriteria f table t with
      | none => [RunEvent.configError t.key]
      | some _ => RunEvent.launch t.key :: perfLoop skipNative f table rest
    else perfLoop skipNative f table rest

/-- The event trace of the whole benchmark phase: the warmup DB-creation
process (line 584) runs before the test loop. -/
noncomputable def runBenchmarks (skipNative : Bool) (f : Flow)
    (table : RunGroupKey → Option CalibrationData)
    (tests : List RunGroupConfig) : List RunEvent :=
  RunEvent.createDb :: perfLoop skipNative f table tests

/-- Folding the classification chain over the executed tests, each given as
(key, waived, measured tps, criteria), threading the errors/warnings pair. -/
noncomputable def runClassifications (skip : Bool) :
    List (RunGroupKey × Bool × ℝ × Criteria) →
    List Message × List Message → List Message × List Message
  | [], ew => ew
  | it :: rest, ew =>
      runClassifications skip rest
        (classifyStep skip it.2.1 it.1 it.2.2.1 it.2.2.2 ew.1 ew.2)

/-- The run skeleton for the exit-status logic: a Move E2E benchmark failure
aborts with exit 1 before the performance tests only under `LAND_BLOCKING`
(lines 551-558); otherwise the tests run, and the final exit is 1 when the
error list is nonempty (line 832), else 1 when the deferred E2E failure was
recorded (line 838), else 0 (line 840). -/
noncomputable def overallRun (f : Flow) (e2eFailed : Bool)
    (items : List (RunGroupKey × Bool × ℝ × Criteria)) : RunOutcome :=
  if e2eFailed = true ∧ f = Flow.LAND_BLOCKING then ⟨false, 1⟩
  else
    let ew := runClassifications (SKIP_PERF_IMPROVEMENT_NOTICE f) items ([], [])
    ⟨true, match ew.1 with
           | _ :: _ => 1
           | [] => if e2eFailed = true then 1 else 0⟩

/-- The key of the first calibration row (line 162). -/
def noopKey : RunGroupKey := ⟨"no-op", 1, "VM"⟩

/-- The statistics of the first calibration row (line 162). -/
def noopCalibration : CalibrationData := ⟨42737.7, 15, 0.922, 1.06⟩

/-- The first test of the catalog, `RunGroupConfig(key=RunGroupKey("no-op"),
included_in=LAND_BLOCKING_AND_C)` (line 210). -/
def noopTest : RunGroupConfig :=
  ⟨noopKey, LAND_BLOCKING_AND_C, none, ⟨none, none, none⟩, false⟩

/-- A one-entry calibration table holding the `no-op` row. -/
def smallTable : RunGroupKey → Option CalibrationData :=
  fun k => if k = noopKey then some noopCalibration else none

/-- The key of the `vector-picture40` test (line 227). -/
def vp40Key : RunGroupKey := ⟨"vector-picture40", 1, "VM"⟩

/-- `RunGroupConfig(expected_tps=100, key=RunGroupKey("vector-picture40"),
included_in=Flow(0), waived=True)` (line 227): a static-override test. -/
def vectorPicture40Test : RunGroupConfig :=
  ⟨vp40Key, emptyFlowSet, some 100, ⟨none, none, none⟩, true⟩

/-- A calibration table that does contain an entry for `vp40Key`, to show the
override branch ignores it. -/
def overrideCloneTable : RunGroupKey → Option CalibrationData :=
  fun k => if k = vp40Key then some noopCalibration else none

/-- The flag union `Flow.MAINNET_LARGE_DB` alone. -/
def mainnetLargeDbOnly : FlowSet := fun f =>
  match f with
  | Flow.MAINNET_LARGE_DB => true
  | _ => false

/-- `RunGroupConfig(expected_tps=20000, key=RunGroupKey("apt-fa-transfer"),
included_in=Flow.MAINNET_LARGE_DB)` (line 290): a static-override test that
is selected under the `MAINNET_LARGE_DB` flow. -/
def mainnetAptFaTest : RunGroupConfig :=
  ⟨⟨"apt-fa-transfer", 1, "VM"⟩, mainnetLargeDbOnly, some 20000,
   ⟨none, none, none⟩, false⟩

/-- `RunGroupConfig(key=RunGroupKey("apt-fa-transfer", executor_type="native"),
included_in=LAND_BLOCKING_AND_C)` (line 213). -/
def aptFaTransferNativeTest : RunGroupConfig :=
  ⟨⟨"apt-fa-transfer", 1, "native"⟩, LAND_BLOCKING_AND_C, none,
   ⟨none, none, none⟩, false⟩

/-- A `RunResults` with a given tps and all other metrics zero. -/
def mkRunResults (tps : ℚ) : RunResults := ⟨tps, 0, 0, 0, 0, 0, 0, 0, 0, 0, 0⟩

/-- A concrete criteria band for classification examples. -/
noncomputable def passCriteria : Criteria := ⟨1000, 800, 900, 1150, 1050⟩

/-- A concrete unwaived calibrated-style test for stage examples. -/
def stageDemoTest : RunGroupConfig :=
  ⟨⟨"t", 1, "VM"⟩, LAND_BLOCKING_AND_C, none, ⟨none, none, none⟩, false⟩

/-- A benchmark output in which the `fraction_in_commit` metric matches two
lines while every rate metric matches exactly one. -/
def dupFractionFind : BenchOutput := fun _ m =>
  match m with
  | Metric.fractionInCommit => [3/10, 2/5]
  | Metric.fractionInExecution => [1/2]
  | Metric.fractionOfExecutionInVm => [1/2]
  | Metric.createDbTps => []
  | _ => [100]

/-- A selected test whose key has neither a static override nor a calibration
entry (it is absent from `smallTable`). -/
def unknownTest : RunGroupConfig :=
  ⟨⟨"unknown-test", 1, "VM"⟩, LAND_BLOCKING_AND_C, none, ⟨none, none, none⟩,
   false⟩

/-- A calibration line for a key `x` respecting the ratio invariant. -/
def dupLineA : String := "x\t1\tVM\t5\t0.9\t1.1\t100"

/-- A second calibration line for the same key `x`, whose statistics violate
the `min_ratio ≤ 1 ≤ max_ratio` invariant (min 2, max 0.5). -/
def dupLineB : String := "x\t1\tVM\t8\t2\t0.5\t200"

/-- The key shared by `dupLineA` and `dupLineB`. -/
def dupKey : RunGroupKey := ⟨"x", 1, "VM"⟩

/-- The statistics carried by `dupLineA` (expected 100, count 5, min ratio
0.9, max ratio 1.1), written in the arithmetic shape the parser produces. -/
def dupDataA : CalibrationData :=
  ⟨((100 : ℕ) : ℚ), 5,
   ((0 : ℕ) : ℚ) + ((9 : ℕ) : ℚ) / (10 : ℚ) ^ (1 : ℕ),
   ((1 : ℕ) : ℚ) + ((1 : ℕ) : ℚ) / (10 : ℚ) ^ (1 : ℕ)⟩

/-- The statistics carried by `dupLineB` (expected 200, count 8, min ratio 2,
max ratio 0.5), written in the arithmetic shape the parser produces. -/
def dupDataB : CalibrationData :=
  ⟨((200 : ℕ) : ℚ), 8, ((2 : ℕ) : ℚ),
   ((0 : ℕ) : ℚ) + ((5 : ℕ) : ℚ) / (10 : ℚ) ^ (1 : ℕ)⟩

/-- C1: for every test whose key resolves to a calibration entry (no
`expected_tps` override, `count ≥ 1`), the computed Criteria equals exactly
the claimed formulas: `expected_tps` is the entry's one, with
`min_tps = e * (1 - (1 - min_ratio) * (1 + 10/count) - 1/count)`,
`max_tps = e * (1 + (max_ratio - 1) * (1 + 10/count) + 1/count)`,
`min_warn_tps = e * min_ratio ^ 0.8`, `max_warn_tps = e * max_ratio ^ 0.8`. -/
theorem C1_calibrated_criteria_formula (f : Flow)
    (table : RunGroupKey → Option CalibrationData) (test : RunGroupConfig)
    (d : CalibrationData) (hov : test.expected_tps = none)
    (hres : table test.key = some d) (hcount : 1 ≤ d.count) :
    computeCriteria f table test = some
      { expected_tps := (d.expected_tps : ℝ)
        min_tps := (d.expected_tps : ℝ) *
          (1 - (1 - (d.min_ratio' : ℝ)) * (1 + 10 / (d.count : ℝ)) - 1 / (d.count : ℝ))
        min_warn_tps := (d.expected_tps : ℝ) * (d.min_ratio' : ℝ) ^ (0.8 : ℝ)
        max_tps := (d.expected_tps : ℝ) *
          (1 + ((d.max_ratio' : ℝ) - 1) * (1 + 10 / (d.count : ℝ)) + 1 / (d.count : ℝ))
        max_warn_tps := (d.expected_tps : ℝ) * (d.max_ratio' : ℝ) ^ (0.8 : ℝ) } := by
  simp [computeCriteria, hov, hres, calibratedCriteria]

/-- Witness for C1 at the catalog's `no-op` test and its calibration row. -/
theorem C1_calibrated_criteria_formula_witness :
    noopTest.expected_tps = none ∧
    smallTable noopTest.key = some noopCalibration ∧
    1 ≤ noopCalibration.count ∧
    computeCriteria Flow.LAND_BLOCKING smallTable noopTest = some
      { expected_tps := (noopCalibration.expected_tps : ℝ)
        min_tps := (noopCalibration.expected_tps : ℝ) *
          (1 - (1 - (noopCalibration.min_ratio' : ℝ)) *
            (1 + 10 / (noopCalibration.count : ℝ)) - 1 / (noopCalibration.count : ℝ))
        min_warn_tps := (noopCalibration.expected_tps : ℝ) *
          (noopCalibration.min_ratio' : ℝ) ^ (0.8 : ℝ)
        max_tps := (noopCalibration.expected_tps : ℝ) *
          (1 + ((noopCalibration.max_ratio' : ℝ) - 1) *
            (1 + 10 / (noopCalibration.count : ℝ)) + 1 / (noopCalibration.count : ℝ))
        max_warn_tps := (noopCalibration.expected_tps : ℝ) *
          (noopCalibration.max_ratio' : ℝ) ^ (0.8 : ℝ) } :=
  ⟨rfl, rfl, by decide,
   C1_calibrated_criteria_formula Flow.LAND_BLOCKING smallTable noopTest
     noopCalibration rfl rfl (by decide)⟩

/-- C4: a test with a static `expected_tps` override gets the fixed-multiplier
Criteria (`min = e * NOISE_LOWER_LIMIT`, `min_warn = e * 0.90`,
`max = e * 1.15`, `max_warn = e * 1.05`), and the calibration table is never
consulted: the result coincides with the one computed from an empty table. -/
theorem C4_static_override_criteria (f : Flow)
    (table : RunGroupKey → Option CalibrationData) (test : RunGroupConfig)
    (e : ℚ) (hov : test.expected_tps = some e) :
    computeCriteria f table test = some
      { expected_tps := (e : ℝ)
        min_tps := (e : ℝ) * NOISE_LOWER_LIMIT f
        min_warn_tps := (e : ℝ) * 0.9
        max_tps := (e : ℝ) * 1.15
        max_warn_tps := (e : ℝ) * 1.05 } ∧
    computeCriteria f table test = computeCriteria f (fun _ => none) test := by
  constructor
  · simp [computeCriteria, hov, staticCriteria, NOISE_LOWER_LIMIT_WARN,
      NOISE_UPPER_LIMIT, NOISE_UPPER_LIMIT_WARN]
  · simp [computeCriteria, hov]

/-- Witness for C4 at the `vector-picture40` override test, against a table
that does contain an entry for its key. -/
theorem C4_static_override_criteria_witness :
    vectorPicture40Test.expected_tps = some 100 ∧
    overrideCloneTable vectorPicture40Test.key = some noopCalibration ∧
    (computeCriteria Flow.LAND_BLOCKING overrideCloneTable vectorPicture40Test = some
      { expected_tps := ((100 : ℚ) : ℝ)
        min_tps := ((100 : ℚ) : ℝ) * NOISE_LOWER_LIMIT Flow.LAND_BLOCKING
        min_warn_tps := ((100 : ℚ) : ℝ) * 0.9
        max_tps := ((100 : ℚ) : ℝ) * 1.15
        max_warn_tps := ((100 : ℚ) : ℝ) * 1.05 } ∧
     computeCriteria Flow.LAND_BLOCKING overrideCloneTable vectorPicture40Test =
       computeCriteria Flow.LAND_BLOCKING (fun _ => none) vectorPicture40Test) :=
  ⟨rfl, rfl,
   C4_static_override_criteria Flow.LAND_BLOCKING overrideCloneTable
     vectorPicture40Test 100 rfl⟩

/-- C3 counterexample: a Criteria actually produced by the code violates the
claimed invariant chain.  Under the `MAINNET_LARGE_DB` flow the static
override test `apt-fa-transfer` (expected 20000) yields
`min_tps = 20000 * 0.98 > 20000 * 0.9 = min_warn_tps`. -/
theorem C3_invariant_counterexample :
    computeCriteria Flow.MAINNET_LARGE_DB (fun _ => none) mainnetAptFaTest =
      some (staticCriteria Flow.MAINNET_LARGE_DB 20000) ∧
    ¬ ((staticCriteria Flow.MAINNET_LARGE_DB 20000).min_tps ≤
       (staticCriteria Flow.MAINNET_LARGE_DB 20000).min_warn_tps) := by
  constructor
  · rfl
  · simp only [staticCriteria, NOISE_LOWER_LIMIT, NOISE_LOWER_LIMIT_WARN,
      IS_MAINNET, if_pos rfl]
    norm_num

/-- C3 (amended): the calibrated path always satisfies the full chain
`min_tps ≤ min_warn_tps ≤ expected_tps ≤ max_warn_tps ≤ max_tps` (for entries
with positive expected tps, `0 < min_ratio ≤ 1 ≤ max_ratio`, `count ≥ 1`);
the static path always satisfies the chain with `min_tps` compared to
`expected_tps` instead of `min_warn_tps`, and satisfies
`min_tps ≤ min_warn_tps` exactly when the flow is not MAINNET-family: under
MAINNET flows `min_tps = 0.98 e` strictly exceeds `min_warn_tps = 0.9 e`. -/
theorem C3_invariant_amended :
    (∀ d : CalibrationData, 0 < d.expected_tps → 0 < d.min_ratio' →
      d.min_ratio' ≤ 1 → 1 ≤ d.max_ratio' → 1 ≤ d.count →
      ((calibratedCriteria d).min_tps ≤ (calibratedCriteria d).min_warn_tps ∧
       (calibratedCriteria d).min_warn_tps ≤ (calibratedCriteria d).expected_tps ∧
       (calibratedCriteria d).expected_tps ≤ (calibratedCriteria d).max_warn_tps ∧
       (calibratedCriteria d).max_warn_tps ≤ (calibratedCriteria d).max_tps)) ∧
    (∀ (f : Flow) (e : ℚ), 0 < e →
      ((staticCriteria f e).min_tps ≤ (staticCriteria f e).expected_tps ∧
       (staticCriteria f e).min_warn_tps ≤ (staticCriteria f e).expected_tps ∧
       (staticCriteria f e).expected_tps ≤ (staticCriteria f e).max_warn_tps ∧
       (staticCriteria f e).max_warn_tps ≤ (staticCriteria f e).max_tps)) ∧
    (∀ (f : Flow) (e : ℚ), 0 < e → IS_MAINNET f = false →
      (staticCriteria f e).min_tps ≤ (staticCriteria f e).min_warn_tps) ∧
    (∀ (f : Flow) (e : ℚ), 0 < e → IS_MAINNET f = true →
      (staticCriteria f e).min_warn_tps < (staticCriteria f e).min_tps) := by
  refine ⟨?_, ?_, ?_, ?_⟩
  · intro d h1 h2 h3 h4 h5
    have hE : (0 : ℝ) < (d.expected_tps : ℝ) := by exact_mod_cast h1
    have hmn0 : (0 : ℝ) < (d.min_ratio' : ℝ) := by exact_mod_cast h2
    have hmn1 : ((d.min_ratio' : ℝ)) ≤ 1 := by exact_mod_cast h3
    have hmx : (1 : ℝ) ≤ (d.max_ratio' : ℝ) := by exact_mod_cast h4
    have hc : (1 : ℝ) ≤ (d.count : ℝ) := by exact_mod_cast h5
    have hc0 : (0 : ℝ) < (d.count : ℝ) := lt_of_lt_of_le one_pos hc
    have h10c : (0 : ℝ) ≤ 10 / (d.count : ℝ) := div_nonneg (by norm_num) hc0.le
    have h1c : (0 : ℝ) ≤ 1 / (d.count : ℝ) := div_nonneg (by norm_num) hc0.le
    simp only [calibratedCriteria]
    refine ⟨?_, ?_, ?_, ?_⟩
    · apply mul_le_mul_of_nonneg_left _ hE.le
      have h7 : (d.min_ratio' : ℝ) ^ (1 : ℝ) ≤ (d.min_ratio' : ℝ) ^ (0.8 : ℝ) :=
        Real.rpow_le_rpow_of_exponent_ge hmn0 hmn1 (by norm_num)
      rw [Real.rpow_one] at h7
      have h6 : (1 : ℝ) - (1 - (d.min_ratio' : ℝ)) * (1 + 10 / (d.count : ℝ)) -
          1 / (d.count : ℝ) ≤ (d.min_ratio' : ℝ) := by
        have heq : (1 : ℝ) - (1 - (d.min_ratio' : ℝ)) * (1 + 10 / (d.count : ℝ)) -
            1 / (d.count : ℝ) = (d.min_ratio' : ℝ) -
            ((1 - (d.min_ratio' : ℝ)) * (10 / (d.count : ℝ)) + 1 / (d.count : ℝ)) := by
          ring
        rw [heq]
        have hnn : (0 : ℝ) ≤ (1 - (d.min_ratio' : ℝ)) * (10 / (d.count : ℝ)) +
            1 / (d.count : ℝ) :=
          add_nonneg (mul_nonneg (by linarith) h10c) h1c
        linarith
      linarith
    · have h8 : (d.min_ratio' : ℝ) ^ (0.8 : ℝ) ≤ 1 :=
        Real.rpow_le_one hmn0.le hmn1 (by norm_num)
      have := mul_le_mul_of_nonneg_left h8 hE.le
      simpa using this
    · have h9 : (d.max_ratio' : ℝ) ^ (0 : ℝ) ≤ (d.max_ratio' : ℝ) ^ (0.8 : ℝ) :=
        Real.rpow_le_rpow_of_exponent_le hmx (by norm_num)
      rw [Real.rpow_zero] at h9
      have := mul_le_mul_of_nonneg_left h9 hE.le
      simpa using this
    · have h10 : (d.max_ratio' : ℝ) ^ (0.8 : ℝ) ≤ (d.max_ratio' : ℝ) ^ (1 : ℝ) :=
        Real.rpow_le_rpow_of_exponent_le hmx (by norm_num)
      rw [Real.rpow_one] at h10
      have h11 : (d.max_ratio' : ℝ) ≤ 1 + ((d.max_ratio' : ℝ) - 1) *
          (1 + 10 / (d.count : ℝ)) + 1 / (d.count : ℝ) := by
        have heq : (1 : ℝ) + ((d.max_ratio' : ℝ) - 1) * (1 + 10 / (d.count : ℝ)) +
            1 / (d.count : ℝ) = (d.max_ratio' : ℝ) +
            (((d.max_ratio' : ℝ) - 1) * (10 / (d.count : ℝ)) + 1 / (d.count : ℝ)) := by
          ring
        rw [heq]
        have hnn : (0 : ℝ) ≤ ((d.max_ratio' : ℝ) - 1) * (10 / (d.count : ℝ)) +
            1 / (d.count : ℝ) :=
          add_nonneg (mul_nonneg (by linarith) h10c) h1c
        linarith
      exact mul_le_mul_of_nonneg_left (h10.trans h11) hE.le
  · intro f e he
    have hE : (0 : ℝ) < (e : ℝ) := by exact_mod_cast he
    simp only [staticCriteria, NOISE_LOWER_LIMIT, NOISE_LOWER_LIMIT_WARN,
      NOISE_UPPER_LIMIT, NOISE_UPPER_LIMIT_WARN]
    refine ⟨?_, ?_, ?_, ?_⟩
    · split_ifs <;> nlinarith
    · nlinarith
    · nlinarith
    · nlinarith
  · intro f e he hf
    have hE : (0 : ℝ) < (e : ℝ) := by exact_mod_cast he
    simp only [staticCriteria, NOISE_LOWER_LIMIT, NOISE_LOWER_LIMIT_WARN, hf]
    norm_num
    nlinarith
  · intro f e he hf
    have hE : (0 : ℝ) < (e : ℝ) := by exact_mod_cast he
    simp only [staticCriteria, NOISE_LOWER_LIMIT, NOISE_LOWER_LIMIT_WARN, hf]
    norm_num
    nlinarith

/-- Witness for the amended C3 at the `no-op` calibration entry and at
concrete static overrides under a default and a MAINNET flow. -/
theorem C3_invariant_amended_witness :
    ((calibratedCriteria noopCalibration).min_tps ≤
       (calibratedCriteria noopCalibration).min_warn_tps ∧
     (calibratedCriteria noopCalibration).min_warn_tps ≤
       (calibratedCriteria noopCalibration).expected_tps ∧
     (calibratedCriteria noopCalibration).expected_tps ≤
       (calibratedCriteria noopCalibration).max_warn_tps ∧
     (calibratedCriteria noopCalibration).max_warn_tps ≤
       (calibratedCriteria noopCalibration).max_tps) ∧
    ((staticCriteria Flow.CONTINUOUS 100).min_tps ≤
       (staticCriteria Flow.CONTINUOUS 100).expected_tps ∧
     (staticCriteria Flow.CONTINUOUS 100).min_warn_tps ≤
       (staticCriteria Flow.CONTINUOUS 100).expected_tps ∧
     (staticCriteria Flow.CONTINUOUS 100).expected_tps ≤
       (staticCriteria Flow.CONTINUOUS 100).max_warn_tps ∧
     (staticCriteria Flow.CONTINUOUS 100).max_warn_tps ≤
       (staticCriteria Flow.CONTINUOUS 100).max_tps) ∧
    (staticCriteria Flow.CONTINUOUS 100).min_tps ≤
      (staticCriteria Flow.CONTINUOUS 100).min_warn_tps ∧
    (staticCriteria Flow.MAINNET_LARGE_DB 20000).min_warn_tps <
      (staticCriteria Flow.MAINNET_LARGE_DB 20000).min_tps :=
  ⟨C3_invariant_amended.1 noopCalibration (by norm_num [noopCalibration])
     (by norm_num [noopCalibration]) (by norm_num [noopCalibration])
     (by norm_num [noopCalibration]) (by norm_num [noopCalibration]),
   C3_invariant_amended.2.1 Flow.CONTINUOUS 100 (by norm_num),
   C3_invariant_amended.2.2.1 Flow.CONTINUOUS 100 (by norm_num) rfl,
   C3_invariant_amended.2.2.2 Flow.MAINNET_LARGE_DB 20000 (by norm_num) rfl⟩

/-- C2: the elif chain realizes exactly the spec's ordered first-match tiers:
regression (`tps < min_tps`, hard error unless waived), soft-low
(`tps < min_warn_tps`, always a warning), improvement (`tps > max_tps`, hard
error unless waived) and soft-high (`tps > max_warn_tps`, warning), the last
two only when the improvement notice is not suppressed, and suppression is
active exactly for the MAINNET-family flows; otherwise nothing is recorded. -/
theorem C2_classification_order (f : Flow) (waived : Bool) (k : RunGroupKey)
    (tps : ℝ) (c : Criteria) (e w : List Message) :
    classifyStep (SKIP_PERF_IMPROVEMENT_NOTICE f) waived k tps c e w =
      (match specClassification (SKIP_PERF_IMPROVEMENT_NOTICE f) tps c with
       | none => (e, w)
       | some t =>
         if tierIsError t = true ∧ waived = false
         then (e ++ [⟨t, tps, c.expected_tps, tierThreshold c t, k⟩], w)
         else (e, w ++ [⟨t, tps, c.expected_tps, tierThreshold c t, k⟩])) ∧
    (SKIP_PERF_IMPROVEMENT_NOTICE f = true ↔
      (f = Flow.MAINNET ∨ f = Flow.MAINNET_LARGE_DB)) := by
  constructor
  · generalize SKIP_PERF_IMPROVEMENT_NOTICE f = skip
    by_cases h1 : tps < c.min_tps
    · cases waived <;>
        simp [classifyStep, specClassification, specTierGuards, List.find?, h1,
          tierIsError, tierThreshold]
    · by_cases h2 : tps < c.min_warn_tps
      · simp [classifyStep, specClassification, specTierGuards, List.find?, h1,
          h2, tierIsError, tierThreshold]
      · cases skip
        · by_cases h3 : c.max_tps < tps
          · cases waived <;>
              simp [classifyStep, specClassification, specTierGuards,
                List.find?, h1, h2, h3, tierIsError, tierThreshold]
          · by_cases h4 : c.max_warn_tps < tps
            · simp [classifyStep, specClassification, specTierGuards,
                List.find?, h1, h2, h3, h4, tierIsError, tierThreshold]
            · simp [classifyStep, specClassification, specTierGuards,
                List.find?, h1, h2, h3, h4]
        · simp [classifyStep, specClassification, specTierGuards, List.find?,
            h1, h2]
  · cases f <;> simp [SKIP_PERF_IMPROVEMENT_NOTICE, IS_MAINNET]

/-- C5 counterexample: the `apt-fa-transfer` native-executor test has the
active flow `LAND_BLOCKING` in its `included_in` set, yet under the default
configuration (`SKIP_NATIVE` set, since `DISABLE_FA_APT` is unset) the main
loop skips it. -/
theorem C5_selection_counterexample :
    aptFaTransferNativeTest.included_in Flow.LAND_BLOCKING = true ∧
    runsTest true Flow.LAND_BLOCKING aptFaTransferNativeTest = false :=
  ⟨rfl, rfl⟩

/-- C5 (amended): a test configuration is executed iff the active flow is a
member of its `included_in` set AND it is not a native-executor test skipped
by `SKIP_NATIVE`. -/
theorem C5_selection_amended (skipNative : Bool) (f : Flow)
    (t : RunGroupConfig) :
    runsTest skipNative f t = true ↔
      (t.included_in f = true ∧
       ¬(skipNative = true ∧ t.key.executor_type = "native")) := by
  cases skipNative <;> simp [runsTest]

/-- C6 counterexample: a stage result is not classified against the Criteria.
Here the overall tps (1000) is inside the band, the stage tps (100) is far
below `min_tps = 800` for an unwaived test, yet neither an error nor a
warning is recorded — a classification of the stage would have recorded a
regression error. -/
theorem C6_stage_not_classified_counterexample :
    ((mkRunResults 100).tps : ℝ) < passCriteria.min_tps ∧
    (processTest false stageDemoTest passCriteria 10000 [] (mkRunResults 1000)
      [(0, mkRunResults 100)] ⟨[], [], []⟩).errors = [] ∧
    (processTest false stageDemoTest passCriteria 10000 [] (mkRunResults 1000)
      [(0, mkRunResults 100)] ⟨[], [], []⟩).warnings = [] := by
  refine ⟨?_, ?_, ?_⟩
  · norm_num [mkRunResults, passCriteria]
  · norm_num [processTest, classifyStep, passCriteria, mkRunResults,
      stageDemoTest]
  · norm_num [processTest, classifyStep, passCriteria, mkRunResults,
      stageDemoTest]

/-- C6 (amended): each stage yields an independent result recorded in the
results list under the synthesized key (transaction type annotated with the
stage index, same working-set size and executor) carrying the parent
criteria's expected tps; but the classification runs only on the parent's
overall result — the errors and warnings are exactly those of the
classification chain applied to the overall tps, independent of the stage
results. -/
theorem C6_stage_results_amended (skip : Bool) (test : RunGroupConfig)
    (criteria : Criteria) (bs : ℕ) (tr : List (ℕ × RunResults))
    (single : RunResults) (stages : List (ℕ × RunResults)) (st : LoopState) :
    (processTest skip test criteria bs tr single stages st).results =
      st.results ++
        (⟨test.key, single, tr, bs, criteria.expected_tps⟩ : RunGroupInstance) ::
          stages.map (fun sr =>
            (⟨stageKey test.key sr.1, sr.2, tr, bs,
              criteria.expected_tps⟩ : RunGroupInstance)) ∧
    (processTest skip test criteria bs tr single stages st).errors =
      (classifyStep skip test.waived test.key ((single.tps : ℝ)) criteria
        st.errors st.warnings).1 ∧
    (processTest skip test criteria bs tr single stages st).warnings =
      (classifyStep skip test.waived test.key ((single.tps : ℝ)) criteria
        st.errors st.warnings).2 := by
  refine ⟨?_, rfl, rfl⟩
  simp [processTest]

theorem get_only_length {l : List ℚ} {x : ℚ} (h : get_only l = some x) :
    l.length = 1 := by
  unfold get_only at h
  split at h
  · assumption
  · exact absurd h (by simp)

theorem get_only_head {l : List ℚ} {x : ℚ} (h : get_only l = some x) :
    l.head? = some x := by
  unfold get_only at h
  split at h
  · assumption
  · exact absurd h (by simp)

theorem lastOf_ne_nil {l : List ℚ} {x : ℚ} (h : lastOf l = some x) : l ≠ [] := by
  intro hnil
  rw [hnil] at h
  exact absurd h (by simp [lastOf])

/-- C7 (amended): the eight rate metrics (tps, gps, effectiveGPS, ioGPS,
executionGPS, gpt, storage fee, output bytes) each require exactly one
matching line — zero or multiple matches is a fatal extraction error — while
the three timing-fraction metrics take the last of one-or-more matches, with
only zero matches fatal. -/
theorem C7_extraction_exactly_one_amended :
    (∀ (out : BenchOutput) (pfx : String)
        (t g eg ig xg gp sf ob fe0 fv0 fc0 : ℚ) (fe fv fc : List ℚ),
      out pfx Metric.tps = [t] → out pfx Metric.gps = [g] →
      out pfx Metric.effectiveGps = [eg] → out pfx Metric.ioGps = [ig] →
      out pfx Metric.executionGps = [xg] → out pfx Metric.gpt = [gp] →
      out pfx Metric.storageFeePt = [sf] → out pfx Metric.outputBps = [ob] →
      out pfx Metric.fractionInExecution = fe ++ [fe0] →
      out pfx Metric.fractionOfExecutionInVm = fv ++ [fv0] →
      out pfx Metric.fractionInCommit = fc ++ [fc0] →
      extract_run_results out pfx false =
        some ⟨t, g, eg, ig, xg, gp, sf, ob, fe0, fv0, fc0⟩) ∧
    (∀ (out : BenchOutput) (pfx : String) (r : RunResults),
      extract_run_results out pfx false = some r →
      ((out pfx Metric.tps).length = 1 ∧ (out pfx Metric.gps).length = 1 ∧
       (out pfx Metric.effectiveGps).length = 1 ∧
       (out pfx Metric.ioGps).length = 1 ∧
       (out pfx Metric.executionGps).length = 1 ∧
       (out pfx Metric.gpt).length = 1 ∧
       (out pfx Metric.storageFeePt).length = 1 ∧
       (out pfx Metric.outputBps).length = 1 ∧
       out pfx Metric.fractionInExecution ≠ [] ∧
       out pfx Metric.fractionOfExecutionInVm ≠ [] ∧
       out pfx Metric.fractionInCommit ≠ [] ∧
       some r.tps = (out pfx Metric.tps).head? ∧
       some r.fraction_in_execution =
         (out pfx Metric.fractionInExecution).getLast? ∧
       some r.fraction_of_execution_in_vm =
         (out pfx Metric.fractionOfExecutionInVm).getLast? ∧
       some r.fraction_in_commit =
         (out pfx Metric.fractionInCommit).getLast?)) := by
  constructor
  · intro out pfx t g eg ig xg gp sf ob fe0 fv0 fc0 fe fv fc
    intro h1 h2 h3 h4 h5 h6 h7 h8 h9 h10 h11
    simp [extract_run_results, get_only, lastOf, h1, h2, h3, h4, h5, h6, h7,
      h8, h9, h10, h11, List.getLast?_concat]
  · intro out pfx r h
    simp only [extract_run_results, Bool.false_eq_true, if_false] at h
    cases e1 : get_only (out pfx Metric.tps) with
    | none => rw [e1] at h; simp at h
    | some v1 =>
    cases e2 : get_only (out pfx Metric.gps) with
    | none => rw [e1, e2] at h; simp at h
    | some v2 =>
    cases e3 : get_only (out pfx Metric.effectiveGps) with
    | none => rw [e1, e2, e3] at h; simp at h
    | some v3 =>
    cases e4 : get_only (out pfx Metric.ioGps) with
    | none => rw [e1, e2, e3, e4] at h; simp at h
    | some v4 =>
    cases e5 : get_only (out pfx Metric.executionGps) with
    | none => rw [e1, e2, e3, e4, e5] at h; simp at h
    | some v5 =>
    cases e6 : get_only (out pfx Metric.gpt) with
    | none => rw [e1, e2, e3, e4, e5, e6] at h; simp at h
    | some v6 =>
    cases e7 : get_only (out pfx Metric.storageFeePt) with
    | none => rw [e1, e2, e3, e4, e5, e6, e7] at h; simp at h
    | some v7 =>
    cases e8 : get_only (out pfx Metric.outputBps) with
    | none => rw [e1, e2, e3, e4, e5, e6, e7, e8] at h; simp at h
    | some v8 =>
    cases e9 : lastOf (out pfx Metric.fractionInExecution) with
    | none => rw [e1, e2, e3, e4, e5, e6, e7, e8, e9] at h; simp at h
    | some v9 =>
    cases e10 : lastOf (out pfx Metric.fractionOfExecutionInVm) with
    | none => rw [e1, e2, e3, e4, e5, e6, e7, e8, e9, e10] at h; simp at h
    | some v10 =>
    cases e11 : lastOf (out pfx Metric.fractionInCommit) with
    | none => rw [e1, e2, e3, e4, e5, e6, e7, e8, e9, e10, e11] at h; simp at h
    | some v11 =>
    rw [e1, e2, e3, e4, e5, e6, e7, e8, e9, e10, e11] at h
    simp only [Option.some.injEq] at h
    subst h
    refine ⟨get_only_length e1, get_only_length e2, get_only_length e3,
      get_only_length e4, get_only_length e5, get_only_length e6,
      get_only_length e7, get_only_length e8,
      lastOf_ne_nil e9, lastOf_ne_nil e10, lastOf_ne_nil e11,
      (get_only_head e1).symm, ?_, ?_, ?_⟩
    · exact e9.symm
    · exact e10.symm
    · exact e11.symm

/-- Witness for the amended C7 at a concrete output shape with two matches
for a fraction metric and one for everything else. -/
theorem C7_extraction_exactly_one_amended_witness :
    dupFractionFind "Overall" Metric.tps = [100] ∧
    dupFractionFind "Overall" Metric.fractionInCommit = [3/10] ++ [2/5] ∧
    extract_run_results dupFractionFind "Overall" false =
      some ⟨100, 100, 100, 100, 100, 100, 100, 100, 1/2, 1/2, 2/5⟩ :=
  ⟨rfl, rfl,
   C7_extraction_exactly_one_amended.1 dupFractionFind "Overall"
     100 100 100 100 100 100 100 100 (1/2) (1/2) (2/5) [] [] [3/10]
     rfl rfl rfl rfl rfl rfl rfl rfl rfl rfl rfl⟩

/-- C7 counterexample: multiple matches for a (prefix, metric) pair do not
always raise the extraction error — with two matches for the
`fraction_in_commit` metric, extraction succeeds and silently picks the last
match. -/
theorem C7_duplicate_match_counterexample :
    (dupFractionFind "Overall" Metric.fractionInCommit).length = 2 ∧
    extract_run_results dupFractionFind "Overall" false =
      some ⟨100, 100, 100, 100, 100, 100, 100, 100, 1/2, 1/2, 2/5⟩ :=
  ⟨rfl, rfl⟩

/-- C8 counterexample: with the first selected test calibrated and the second
lacking both override and calibration entry, a process (the warmup DB
creation) and the first test's benchmark are launched before the
configuration error is raised — the error is not raised before any process
is launched. -/
theorem C8_processes_precede_config_error_counterexample :
    runBenchmarks false Flow.LAND_BLOCKING smallTable [noopTest, unknownTest] =
      [RunEvent.createDb, RunEvent.launch noopKey,
       RunEvent.configError unknownTest.key] ∧
    RunEvent.launch noopKey ∈
      runBenchmarks false Flow.LAND_BLOCKING smallTable
        [noopTest, unknownTest] := by
  refine ⟨rfl, ?_⟩
  rw [show runBenchmarks false Flow.LAND_BLOCKING smallTable
      [noopTest, unknownTest] =
      [RunEvent.createDb, RunEvent.launch noopKey,
       RunEvent.configError unknownTest.key] from rfl]
  simp

/-- C8 (amended): when a selected test's key has neither a static override
nor a calibration entry, the configuration error is raised during that test's
iteration — before that test's own benchmark process is launched — and
aborts the loop: the error is the final event of the loop trace.  It is not
raised before earlier processes: the DB-creation process and the benchmarks
of previously selected tests have already been launched. -/
theorem C8_config_error_aborts_amended :
    (∀ (sn : Bool) (f : Flow) (tbl : RunGroupKey → Option CalibrationData)
        (tests : List RunGroupConfig) (k : RunGroupKey),
      RunEvent.configError k ∈ perfLoop sn f tbl tests →
      ∃ pre, perfLoop sn f tbl tests = pre ++ [RunEvent.configError k]) ∧
    (∀ (sn : Bool) (f : Flow) (tbl : RunGroupKey → Option CalibrationData)
        (t : RunGroupConfig) (rest : List RunGroupConfig),
      runsTest sn f t = true → t.expected_tps = none → tbl t.key = none →
      perfLoop sn f tbl (t :: rest) = [RunEvent.configError t.key]) := by
  constructor
  · intro sn f tbl tests
    induction tests with
    | nil => intro k hk; simp [perfLoop] at hk
    | cons t rest ih =>
      intro k hk
      by_cases hr : runsTest sn f t = true
      · cases hc : computeCriteria f tbl t with
        | none =>
          rw [(by simp [perfLoop, hr, hc] :
            perfLoop sn f tbl (t :: rest) = [RunEvent.configError t.key])] at hk
          simp at hk
          exact ⟨[], by simp [perfLoop, hr, hc, hk]⟩
        | some c =>
          rw [(by simp [perfLoop, hr, hc] :
            perfLoop sn f tbl (t :: rest) =
              RunEvent.launch t.key :: perfLoop sn f tbl rest)] at hk
          simp at hk
          obtain ⟨pre, hpre⟩ := ih k hk
          exact ⟨RunEvent.launch t.key :: pre,
            by simp [perfLoop, hr, hc, hpre]⟩
      · rw [(by simp [perfLoop, hr] :
          perfLoop sn f tbl (t :: rest) = perfLoop sn f tbl rest)] at hk
        obtain ⟨pre, hpre⟩ := ih k hk
        exact ⟨pre, by simp [perfLoop, hr, hpre]⟩
  · intro sn f tbl t rest hr hov htbl
    simp [perfLoop, hr, computeCriteria, hov, htbl]

/-- Witness for the amended C8 on a concrete run with a calibrated test
followed by an uncalibrated one. -/
theorem C8_config_error_aborts_amended_witness :
    (∃ pre, perfLoop false Flow.LAND_BLOCKING smallTable
        [noopTest, unknownTest] = pre ++ [RunEvent.configError unknownTest.key]) ∧
    perfLoop false Flow.LAND_BLOCKING smallTable [unknownTest] =
      [RunEvent.configError unknownTest.key] :=
  ⟨C8_config_error_aborts_amended.1 false Flow.LAND_BLOCKING smallTable
     [noopTest, unknownTest] unknownTest.key (by decide),
   C8_config_error_aborts_amended.2 false Flow.LAND_BLOCKING smallTable
     unknownTest [] rfl rfl rfl⟩

theorem classifyStep_waived_errors (skip : Bool) (k : RunGroupKey) (tps : ℝ)
    (c : Criteria) (e w : List Message) :
    (classifyStep skip true k tps c e w).1 = e := by
  unfold classifyStep
  split_ifs <;> simp_all

theorem runClassifications_waived (skip : Bool) :
    ∀ (items : List (RunGroupKey × Bool × ℝ × Criteria))
      (ew : List Message × List Message),
      (∀ it ∈ items, it.2.1 = true) →
      (runClassifications skip items ew).1 = ew.1
  | [], _, _ => rfl
  | it :: rest, ew, h => by
      have h1 : it.2.1 = true := h it (List.mem_cons_self it rest)
      simp only [runClassifications]
      rw [runClassifications_waived skip rest _
        (fun x hx => h x (List.mem_cons_of_mem it hx))]
      rw [h1]
      exact classifyStep_waived_errors skip it.1 it.2.2.1 it.2.2.2 ew.1 ew.2

/-- C9: the exit code is nonzero iff the error list is nonempty or the
prerequisite Move E2E benchmark failed; the exit code is a function of the
error list only (warnings never affect it); an all-waived run records no
errors; and an E2E failure skips the performance tests exactly under
`LAND_BLOCKING`, while under any other flow the tests still run and the
process fails at the end. -/
theorem C9_exit_status (f : Flow) (e2eFailed : Bool)
    (items : List (RunGroupKey × Bool × ℝ × Criteria)) :
    ((overallRun f e2eFailed items).exitCode ≠ 0 ↔
      ((runClassifications (SKIP_PERF_IMPROVEMENT_NOTICE f) items
          ([], [])).1 ≠ [] ∨ e2eFailed = true)) ∧
    (∀ items',
      (runClassifications (SKIP_PERF_IMPROVEMENT_NOTICE f) items ([], [])).1 =
        (runClassifications (SKIP_PERF_IMPROVEMENT_NOTICE f) items' ([], [])).1 →
      (overallRun f e2eFailed items).exitCode =
        (overallRun f e2eFailed items').exitCode) ∧
    ((∀ it ∈ items, it.2.1 = true) →
      (runClassifications (SKIP_PERF_IMPROVEMENT_NOTICE f) items
        ([], [])).1 = []) ∧
    ((overallRun f e2eFailed items).perfTestsRan = false ↔
      (e2eFailed = true ∧ f = Flow.LAND_BLOCKING)) ∧
    (e2eFailed = true → f ≠ Flow.LAND_BLOCKING →
      (overallRun f e2eFailed items).perfTestsRan = true ∧
      (overallRun f e2eFailed items).exitCode ≠ 0) := by
  refine ⟨?_, ?_, ?_, ?_, ?_⟩
  · by_cases habort : e2eFailed = true ∧ f = Flow.LAND_BLOCKING
    · simp [overallRun, habort, habort.1]
    · cases hE : (runClassifications (SKIP_PERF_IMPROVEMENT_NOTICE f) items
          ([], [])).1 with
      | nil =>
        cases e2eFailed
        · simp [overallRun, habort, hE]
        · simp [overallRun, hE]
          split <;> simp
      | cons m ms =>
        simp [overallRun, hE]
        split <;> simp
  · intro items' hEq
    by_cases habort : e2eFailed = true ∧ f = Flow.LAND_BLOCKING
    · simp [overallRun, habort]
    · simp only [overallRun, if_neg habort]
      rw [hEq]
  · intro h
    simpa using
      runClassifications_waived (SKIP_PERF_IMPROVEMENT_NOTICE f) items
        ([], []) h
  · by_cases habort : e2eFailed = true ∧ f = Flow.LAND_BLOCKING
    · simp [overallRun, habort]
    · simp [overallRun, habort]
  · intro h1 h2
    have habort : ¬(e2eFailed = true ∧ f = Flow.LAND_BLOCKING) :=
      fun hc => h2 hc.2
    cases hE : (runClassifications (SKIP_PERF_IMPROVEMENT_NOTICE f) items
        ([], [])).1 with
    | nil => simp [overallRun, hE, h1, h2]
    | cons m ms => simp [overallRun, hE, h1, h2]

/-- Witness for C9 under the `CONTINUOUS` flow with a failed E2E benchmark
and no executed tests. -/
theorem C9_exit_status_witness :
    ((overallRun Flow.CONTINUOUS true []).exitCode ≠ 0 ↔
      ((runClassifications (SKIP_PERF_IMPROVEMENT_NOTICE Flow.CONTINUOUS) []
          ([], [])).1 ≠ [] ∨ true = true)) ∧
    (overallRun Flow.CONTINUOUS true []).exitCode =
      (overallRun Flow.CONTINUOUS true []).exitCode ∧
    (runClassifications (SKIP_PERF_IMPROVEMENT_NOTICE Flow.CONTINUOUS) []
      ([], [])).1 = [] ∧
    ((overallRun Flow.CONTINUOUS true []).perfTestsRan = true ∧
     (overallRun Flow.CONTINUOUS true []).exitCode ≠ 0) :=
  ⟨(C9_exit_status Flow.CONTINUOUS true []).1,
   (C9_exit_status Flow.CONTINUOUS true []).2.1 [] rfl,
   (C9_exit_status Flow.CONTINUOUS true []).2.2.1
     (fun it hit => absurd hit (List.not_mem_nil it)),
   (C9_exit_status Flow.CONTINUOUS true []).2.2.2.2 rfl (by decide)⟩

theorem foldl_dictInsert_not_mem (m : RunGroupKey → Option CalibrationData)
    (suf : List (RunGroupKey × CalibrationData)) (k : RunGroupKey)
    (h : ∀ e ∈ suf, e.1 ≠ k) : suf.foldl dictInsert m k = m k := by
  induction suf generalizing m with
  | nil => rfl
  | cons e rest ih =>
    have he : e.1 ≠ k := h e (List.mem_cons_self e rest)
    have hrest : ∀ x ∈ rest, x.1 ≠ k :=
      fun x hx => h x (List.mem_cons_of_mem e hx)
    simp only [List.foldl_cons]
    rw [ih _ hrest]
    simp [dictInsert, Ne.symm he]

/-- C10: when several rows of the calibration text share a key, parsing
raises no error and the built dict maps the key to the statistics of the last
such row, discarding the earlier ones; no `min_ratio ≤ 1 ≤ max_ratio`
validation happens at parse time — two concrete tab-separated lines with the
same key, the second violating both ratio bounds, parse into a table that
holds exactly the second row's statistics. -/
theorem C10_duplicate_rows_last_wins :
    (∀ (pre suf : List (RunGroupKey × CalibrationData)) (k : RunGroupKey)
        (d : CalibrationData), (∀ e ∈ suf, e.1 ≠ k) →
      buildTable (pre ++ (k, d) :: suf) k = some d) ∧
    parseCalibrationRows [dupLineA, dupLineB] =
      some [(dupKey, dupDataA), (dupKey, dupDataB)] ∧
    buildTable [(dupKey, dupDataA), (dupKey, dupDataB)] dupKey =
      some dupDataB ∧
    1 < dupDataB.min_ratio' ∧ dupDataB.max_ratio' < 1 := by
  refine ⟨?_, rfl, rfl, ?_, ?_⟩
  · intro pre suf k d h
    unfold buildTable
    rw [List.foldl_append]
    simp only [List.foldl_cons]
    rw [foldl_dictInsert_not_mem _ suf k h]
    simp [dictInsert]
  · norm_num [dupDataB]
  · norm_num [dupDataB]

/-- Witness for C10's last-wins rule on a concrete row list with a duplicate
key followed by a differently-keyed row. -/
theorem C10_duplicate_rows_last_wins_witness :
    buildTable ([(dupKey, dupDataA)] ++ (dupKey, dupDataB) ::
      [(noopKey, noopCalibration)]) dupKey = some dupDataB :=
  C10_duplicate_rows_last_wins.1 [(dupKey, dupDataA)]
    [(noopKey, noopCalibration)] dupKey dupDataB (by decide)

end SNP
